import Mathlib

/-!
Verification of the nRF52 interrupt-routing core (chips/nrf52/src/chip.rs):
the vector-to-handler dispatch (`service_interrupt`), the drain loop
(`service_pending_interrupts`) and the pending-work query
(`has_pending_interrupts`), embedded as pure functions over an explicit
peripheral/controller state producing an observable event trace.
-/

namespace Nrf52Chip

/-- Peripheral drivers dispatched to by the chip. Each corresponds to one
static driver instance named in `service_interrupt`
(e.g. `nrf5x::aes::AESECB`, `ieee802154_radio::RADIO`, `spi::SPIM0`). -/
inductive Peripheral where
  | aesecb
  | gpiotePort
  | power
  | ieee802154
  | ble
  | trng
  | rtc
  | temp
  | timer0
  | alarm1
  | timer2
  | uarte0
  | spim0
  | twim0
  | spim1
  | twim1
  | spim2
  | adc
  | nvmc
  deriving DecidableEq, Repr

/-- Observable side effects of the routing core, in program order:
`handle p` is a call to peripheral `p`'s `handle_interrupt()`;
`debugMsg m` is a non-fatal `debug!` log with literal message `m`;
`debugAssertFail m` marks the `debug_assert!(false, m)` fatal
invariant-violation path being reached (control flow afterwards follows the
source's fall-through, as in a build where the assert does not abort);
`debugUnsupported v` is the non-fatal `debug!` naming unrecognized vector `v`;
`clearPending v` and `enable v` are the NVIC calls `clear_pending`/`enable`
on vector `v`. -/
inductive Event where
  | handle (p : Peripheral)
  | debugMsg (msg : String)
  | debugAssertFail (msg : String)
  | debugUnsupported (v : Nat)
  | clearPending (v : Nat)
  | enable (v : Nat)
  deriving DecidableEq, Repr

/-- Modelled from the spec: the vector numbers `nrf5x::peripheral_interrupts::*`
live outside the extracted source; the spec says a Vector Number is an
unsigned integer unique per physical vector. The values below follow the
nRF52 silicon numbering; only their pairwise distinctness matters to the
dispatch semantics. -/
def POWER_CLOCK_vec : Nat := 0

/-- Vector number of the shared RADIO line (ieee802154 / ble pair). -/
def RADIO_vec : Nat := 1

/-- Vector number of UART0. -/
def UART0_vec : Nat := 2

/-- Vector number of the shared SPI0/TWI0 line. -/
def SPI0_TWI0_vec : Nat := 3

/-- Vector number of the shared SPI1/TWI1 line. -/
def SPI1_TWI1_vec : Nat := 4

/-- Vector number of GPIOTE. -/
def GPIOTE_vec : Nat := 6

/-- Vector number of the ADC. -/
def ADC_vec : Nat := 7

/-- Vector number of TIMER0. -/
def TIMER0_vec : Nat := 8

/-- Vector number of TIMER1. -/
def TIMER1_vec : Nat := 9

/-- Vector number of TIMER2. -/
def TIMER2_vec : Nat := 10

/-- Vector number of the temperature sensor. -/
def TEMP_vec : Nat := 12

/-- Vector number of the RNG. -/
def RNG_vec : Nat := 13

/-- Vector number of the AES ECB engine. -/
def ECB_vec : Nat := 14

/-- Vector number of RTC1. -/
def RTC1_vec : Nat := 17

/-- Vector number of SPIM2/SPIS2/SPI2. -/
def SPIM2_SPIS2_SPI2_vec : Nat := 35

/-- The `is_enabled()` answers of the six peripherals that sit on a shared
vector, sampled at the moment `service_interrupt` queries them. The spec's
Peripheral Handler Contract makes `is_enabled()` a pure, side-effect-free
read, so one sample per call is faithful. -/
structure PeripheralState where
  ieee802154_enabled : Bool
  ble_enabled : Bool
  spim0_enabled : Bool
  twim0_enabled : Bool
  spim1_enabled : Bool
  twim1_enabled : Bool
  deriving DecidableEq, Repr

/-- Embedding of `InterruptService::service_interrupt` (chip.rs lines 52-110):
given the shared-peripheral enabled states and a vector number, returns the
event trace produced and the `bool` return value (recognized or not). The
Rust `match` on distinct `u32` constants is rendered as the equivalent
equality chain. -/
def service_interrupt (p : PeripheralState) (interrupt : Nat) : List Event × Bool :=
  if interrupt = ECB_vec then ([.handle .aesecb], true)
  else if interrupt = GPIOTE_vec then ([.handle .gpiotePort], true)
  else if interrupt = POWER_CLOCK_vec then ([.handle .power], true)
  else if interrupt = RADIO_vec then
    (match p.ieee802154_enabled, p.ble_enabled with
      | false, false => []
      | true, false => [.handle .ieee802154]
      | false, true => [.handle .ble]
      | true, true =>
          [.debugMsg "nRF 802.15.4 and BLE radios cannot be simultaneously enabled!"],
     true)
  else if interrupt = RNG_vec then ([.handle .trng], true)
  else if interrupt = RTC1_vec then ([.handle .rtc], true)
  else if interrupt = TEMP_vec then ([.handle .temp], true)
  else if interrupt = TIMER0_vec then ([.handle .timer0], true)
  else if interrupt = TIMER1_vec then ([.handle .alarm1], true)
  else if interrupt = TIMER2_vec then ([.handle .timer2], true)
  else if interrupt = UART0_vec then ([.handle .uarte0], true)
  else if interrupt = SPI0_TWI0_vec then
    (match p.spim0_enabled, p.twim0_enabled with
      | false, false => []
      | true, false => [.handle .spim0]
      | false, true => [.handle .twim0]
      | true, true =>
          [.debugAssertFail "SPIM0 and TWIM0 cannot be enabled at the same time."],
     true)
  else if interrupt = SPI1_TWI1_vec then
    (match p.spim1_enabled, p.twim1_enabled with
      | false, false => []
      | true, false => [.handle .spim1]
      | false, true => [.handle .twim1]
      | true, true =>
          [.debugAssertFail "SPIM1 and TWIM1 cannot be enabled at the same time."],
     true)
  else if interrupt = SPIM2_SPIS2_SPI2_vec then ([.handle .spim2], true)
  else if interrupt = ADC_vec then ([.handle .adc], true)
  else ([], false)

/-- The vectors present in the dispatch table of `service_interrupt`. -/
def tableVectors : List Nat :=
  [ECB_vec, GPIOTE_vec, POWER_CLOCK_vec, RADIO_vec, RNG_vec, RTC1_vec, TEMP_vec,
   TIMER0_vec, TIMER1_vec, TIMER2_vec, UART0_vec, SPI0_TWI0_vec, SPI1_TWI1_vec,
   SPIM2_SPIS2_SPI2_vec, ADC_vec]

/-- The chip's deferred-call tasks (`deferred_call_tasks::DeferredCallTask`):
a closed enumeration with the single variant `Nvmc`. -/
inductive DeferredCallTask where
  | nvmc
  deriving DecidableEq, Repr

/-- Handler dispatched for a deferred task by the `match task` in
`service_pending_interrupts` (`Nvmc => nvmc::NVMC.handle_interrupt()`). -/
def deferredEvent : DeferredCallTask → Event
  | .nvmc => .handle .nvmc

/-- Modelled from the spec: the Deferred-Call Queue and the Interrupt
Controller (`kernel::common::deferred_call`, `cortexm4::nvic`) live outside
the extracted source. Per the spec's interface contracts, the queue exposes
"is anything pending / take and clear one pending token" and the controller
exposes "is any vector pending / take the next pending vector /
per-vector clear-pending and enable". Both are modelled as lists of
currently pending items; `next_pending` yields the head (the controller
defines the selection order), taking a deferred token removes it, and
`clear_pending v` removes every pending occurrence of `v` (pending bits form
a set). No new work arrives during a call, matching the spec's exhaustion
assumption. -/
structure ChipState where
  periph : PeripheralState
  deferred : List DeferredCallTask
  nvicPending : List Nat
  deriving DecidableEq, Repr

/-- Trace block of one hardware-vector iteration of the loop body
(chip.rs lines 137-143): the dispatch events of `service_interrupt`, then,
when it returned `false`, the non-fatal `debug!` naming the vector, then
`clear_pending` and `enable` on that vector. -/
def hwBlock (p : PeripheralState) (v : Nat) : List Event :=
  (service_interrupt p v).1
    ++ (if (service_interrupt p v).2 then [] else [.debugUnsupported v])
    ++ [.clearPending v, .enable v]

/-- Embedding of `NRF52::service_pending_interrupts` (chip.rs lines 130-149):
loop that first drains a pending deferred task if any, else takes the next
pending vector, services it and re-arms it, else stops. Returns the full
event trace and the final state. -/
def service_pending_interrupts (s : ChipState) : List Event × ChipState :=
  match h : s.deferred with
  | task :: rest =>
      let r := service_pending_interrupts { s with deferred := rest }
      (deferredEvent task :: r.1, r.2)
  | [] =>
      match h2 : s.nvicPending with
      | v :: t =>
          let r := service_pending_interrupts
            { s with nvicPending := t.filter (fun x => x != v) }
          (hwBlock s.periph v ++ r.1, r.2)
      | [] => ([], s)
termination_by s.deferred.length + s.nvicPending.length
decreasing_by
  · simp [h]
  · simp [h, h2]
    exact Nat.lt_succ_of_le (List.length_filter_le _ _)

/-- Modelled from the spec: `deferred_call::has_tasks()` — the queue reports
pending work iff it holds at least one token. -/
def deferred_has_tasks (s : ChipState) : Bool := !s.deferred.isEmpty

/-- Modelled from the spec: `nvic::has_pending()` — the controller reports
pending work iff at least one vector is pending. -/
def nvic_has_pending (s : ChipState) : Bool := !s.nvicPending.isEmpty

/-- Embedding of `NRF52::has_pending_interrupts` (chip.rs lines 151-153):
`nvic::has_pending() || deferred_call::has_tasks()`. A pure function of the
state: it returns only a `Bool` and no successor state, so it is
side-effect-free by construction. -/
def has_pending_interrupts (s : ChipState) : Bool :=
  nvic_has_pending s || deferred_has_tasks s

/-- True exactly on the events `service_interrupt` itself can emit
(handler calls and its two kinds of diagnostics). -/
def Event.isDispatch : Event → Bool
  | .handle _ => true
  | .debugMsg _ => true
  | .debugAssertFail _ => true
  | _ => false

/-- True exactly on handler-invocation events. -/
def Event.isHandle : Event → Bool
  | .handle _ => true
  | _ => false

/-- True exactly on the fatal-assert (`debug_assert!` failure) event. -/
def Event.isFatal : Event → Bool
  | .debugAssertFail _ => true
  | _ => false

/-- Sequence of vectors taken by the loop from an initial pending set:
the head, then whatever remains after clearing it. -/
def servicedVectors : List Nat → List Nat
  | [] => []
  | v :: t => v :: servicedVectors (t.filter (fun x => x != v))
termination_by l => l.length
decreasing_by
  simp
  exact Nat.lt_succ_of_le (List.length_filter_le _ _)

/-- Shape of every trace `service_interrupt` can produce: empty, or a single
dispatch event (handler call or diagnostic). -/
def dispatchShape (l : List Event) : Bool :=
  match l with
  | [] => true
  | [e] => e.isDispatch
  | _ => false

/-- A vector absent from the dispatch table is not recognized and produces
no events (the `_ => return false` arm). -/
theorem service_interrupt_unknown (p : PeripheralState) (v : Nat) (h : v ∉ tableVectors) :
    service_interrupt p v = ([], false) := by
  simp only [tableVectors, List.mem_cons, List.not_mem_nil, or_false, not_or] at h
  obtain ⟨h1, h2, h3, h4, h5, h6, h7, h8, h9, h10, h11, h12, h13, h14, h15⟩ := h
  unfold service_interrupt
  rw [if_neg h1, if_neg h2, if_neg h3, if_neg h4, if_neg h5, if_neg h6, if_neg h7,
      if_neg h8, if_neg h9, if_neg h10, if_neg h11, if_neg h12, if_neg h13,
      if_neg h14, if_neg h15]

/-- Every trace of `service_interrupt` has the dispatch shape. -/
theorem service_interrupt_shape (p : PeripheralState) (v : Nat) :
    dispatchShape (service_interrupt p v).1 = true := by
  rcases p with ⟨a, b, c, d, e, f⟩
  by_cases h1 : v = ECB_vec
  · subst h1; rfl
  by_cases h2 : v = GPIOTE_vec
  · subst h2; rfl
  by_cases h3 : v = POWER_CLOCK_vec
  · subst h3; rfl
  by_cases h4 : v = RADIO_vec
  · subst h4; cases a <;> cases b <;> rfl
  by_cases h5 : v = RNG_vec
  · subst h5; rfl
  by_cases h6 : v = RTC1_vec
  · subst h6; rfl
  by_cases h7 : v = TEMP_vec
  · subst h7; rfl
  by_cases h8 : v = TIMER0_vec
  · subst h8; rfl
  by_cases h9 : v = TIMER1_vec
  · subst h9; rfl
  by_cases h10 : v = TIMER2_vec
  · subst h10; rfl
  by_cases h11 : v = UART0_vec
  · subst h11; rfl
  by_cases h12 : v = SPI0_TWI0_vec
  · subst h12; cases c <;> cases d <;> rfl
  by_cases h13 : v = SPI1_TWI1_vec
  · subst h13; cases e <;> cases f <;> rfl
  by_cases h14 : v = SPIM2_SPIS2_SPI2_vec
  · subst h14; rfl
  by_cases h15 : v = ADC_vec
  · subst h15; rfl
  rw [service_interrupt_unknown _ v (by simp [tableVectors, h1, h2, h3, h4, h5, h6,
      h7, h8, h9, h10, h11, h12, h13, h14, h15])]
  rfl

/-- Every vector in the table is recognized (`true` is returned by each arm). -/
theorem service_interrupt_recognized (p : PeripheralState) (v : Nat)
    (h : v ∈ tableVectors) : (service_interrupt p v).2 = true := by
  rcases p with ⟨a, b, c, d, e, f⟩
  simp only [tableVectors, List.mem_cons, List.not_mem_nil, or_false] at h
  rcases h with h | h | h | h | h | h | h | h | h | h | h | h | h | h | h
  · subst h; rfl
  · subst h; rfl
  · subst h; rfl
  · subst h; cases a <;> cases b <;> rfl
  · subst h; rfl
  · subst h; rfl
  · subst h; rfl
  · subst h; rfl
  · subst h; rfl
  · subst h; rfl
  · subst h; rfl
  · subst h; cases c <;> cases d <;> rfl
  · subst h; cases e <;> cases f <;> rfl
  · subst h; rfl
  · subst h; rfl

/-- An unrecognized call produces no events at all. -/
theorem service_interrupt_unrecognized_events (p : PeripheralState) (v : Nat)
    (h : (service_interrupt p v).2 = false) : (service_interrupt p v).1 = [] := by
  by_cases hmem : v ∈ tableVectors
  · rw [service_interrupt_recognized p v hmem] at h
    exact Bool.noConfusion h
  · rw [service_interrupt_unknown p v hmem]

/-- A trace of dispatch shape holds no occurrence of a non-dispatch event. -/
theorem shape_count_eq_zero (l : List Event) (e : Event) (h : dispatchShape l = true)
    (he : Event.isDispatch e = false) : l.count e = 0 := by
  cases l with
  | nil => rfl
  | cons x t =>
    cases t with
    | nil =>
        have hx : x ≠ e := by
          intro hx
          simp only [dispatchShape] at h
          rw [hx, he] at h
          exact Bool.noConfusion h
        rw [List.count_eq_zero]
        simp only [List.mem_singleton]
        exact fun hex => hx hex.symm
    | cons y u => simp [dispatchShape] at h

/-- A trace of dispatch shape holds at most one handler invocation. -/
theorem shape_countP_isHandle_le (l : List Event) (h : dispatchShape l = true) :
    l.countP Event.isHandle ≤ 1 := by
  cases l with
  | nil => simp [List.countP_nil]
  | cons x t =>
    cases t with
    | nil => cases hx : Event.isHandle x <;> simp [List.countP_cons, hx]
    | cons y u => simp [dispatchShape] at h

/-- After `service_pending_interrupts` returns, both pending lists are empty. -/
theorem final_state_empty (s : ChipState) :
    (service_pending_interrupts s).2.deferred = []
    ∧ (service_pending_interrupts s).2.nvicPending = [] := by
  induction s using service_pending_interrupts.induct with
  | case1 s task rest h ih =>
      obtain ⟨p, dq, pq⟩ := s
      simp only at h
      subst h
      rw [service_pending_interrupts]
      exact ih
  | case2 s h v t h2 ih =>
      obtain ⟨p, dq, pq⟩ := s
      simp only at h h2
      subst h h2
      rw [service_pending_interrupts]
      exact ih
  | case3 s h h2 =>
      obtain ⟨p, dq, pq⟩ := s
      simp only at h h2
      subst h h2
      rw [service_pending_interrupts]
      exact ⟨rfl, rfl⟩

/-- The full event trace of the loop: all deferred handlers first, then one
`hwBlock` per vector taken from the controller. -/
theorem events_decomposition (s : ChipState) :
    (service_pending_interrupts s).1 =
      s.deferred.map deferredEvent ++
        ((servicedVectors s.nvicPending).map (hwBlock s.periph)).flatten := by
  induction s using service_pending_interrupts.induct with
  | case1 s task rest h ih =>
      obtain ⟨p, dq, pq⟩ := s
      simp only at h
      subst h
      rw [service_pending_interrupts]
      simp only [List.map_cons, List.cons_append]
      rw [ih]
  | case2 s h v t h2 ih =>
      obtain ⟨p, dq, pq⟩ := s
      simp only at h h2
      subst h h2
      rw [service_pending_interrupts, servicedVectors]
      simp only [List.map_cons, List.map_nil, List.flatten, List.nil_append]
      rw [ih]
      simp [List.append_assoc]
  | case3 s h h2 =>
      obtain ⟨p, dq, pq⟩ := s
      simp only at h h2
      subst h h2
      rw [service_pending_interrupts]
      simp [servicedVectors]

/-- Trace of a call whose only pending work is one hardware vector. -/
theorem single_vector_trace (p : PeripheralState) (v : Nat) :
    (service_pending_interrupts ⟨p, [], [v]⟩).1 = hwBlock p v := by
  rw [events_decomposition]
  simp [servicedVectors]

/-- Claim C1, counterexample: the claim says every shared-vector group hits
the fatal-assert path when both members are enabled, but the RADIO group's
both-enabled arm is a plain `debug!` log, not a `debug_assert!`: servicing
the RADIO vector with both radios enabled produces no fatal-assert event. -/
theorem radio_both_enabled_no_fatal_assert :
    ((service_interrupt ⟨true, true, false, false, false, false⟩ RADIO_vec).1.countP
      Event.isFatal) = 0 := by decide

/-- Claim C1, amended: when both members of a shared-vector group report
enabled, servicing that group's vector reaches the invariant-violation
diagnostic path — the fatal assert for the SPI0/TWI0 and SPI1/TWI1 groups,
a non-fatal diagnostic for the RADIO group — and neither member's
`handle_interrupt()` is invoked (the trace holds no handler event). -/
theorem shared_group_both_enabled_diagnostic (b1 b2 b3 b4 : Bool) :
    service_interrupt ⟨true, true, b1, b2, b3, b4⟩ RADIO_vec
      = ([Event.debugMsg "nRF 802.15.4 and BLE radios cannot be simultaneously enabled!"],
         true)
    ∧ service_interrupt ⟨b1, b2, true, true, b3, b4⟩ SPI0_TWI0_vec
      = ([Event.debugAssertFail "SPIM0 and TWIM0 cannot be enabled at the same time."],
         true)
    ∧ service_interrupt ⟨b1, b2, b3, b4, true, true⟩ SPI1_TWI1_vec
      = ([Event.debugAssertFail "SPIM1 and TWIM1 cannot be enabled at the same time."],
         true) :=
  ⟨rfl, rfl, rfl⟩

/-- Claim C2: the loop trace splits into one block per taken vector; each
block calls `clear_pending` and `enable` exactly once on that vector, after
the dispatch events and, for an unrecognized vector, after the non-fatal
diagnostic naming it, and before the next item's block begins. -/
theorem rearm_once_per_vector (s : ChipState) (p : PeripheralState) (v : Nat) :
    (service_pending_interrupts s).1 =
        s.deferred.map deferredEvent ++
          ((servicedVectors s.nvicPending).map (hwBlock s.periph)).flatten
    ∧ (hwBlock p v).count (Event.clearPending v) = 1
    ∧ (hwBlock p v).count (Event.enable v) = 1
    ∧ hwBlock p v = (service_interrupt p v).1
        ++ (if (service_interrupt p v).2 then [] else [Event.debugUnsupported v])
        ++ [Event.clearPending v, Event.enable v]
    ∧ ((service_interrupt p v).2 = false →
        hwBlock p v = [Event.debugUnsupported v, Event.clearPending v, Event.enable v]) := by
  have hs := service_interrupt_shape p v
  have hc : (service_interrupt p v).1.count (Event.clearPending v) = 0 :=
    shape_count_eq_zero _ _ hs rfl
  have hen : (service_interrupt p v).1.count (Event.enable v) = 0 :=
    shape_count_eq_zero _ _ hs rfl
  refine ⟨events_decomposition s, ?_, ?_, rfl, ?_⟩
  · cases hrec : (service_interrupt p v).2 <;>
      simp [hwBlock, List.count_append, List.count_cons, hc, hrec]
  · cases hrec : (service_interrupt p v).2 <;>
      simp [hwBlock, List.count_append, List.count_cons, hen, hrec]
  · intro hrec
    simp [hwBlock, hrec, service_interrupt_unrecognized_events p v hrec]

/-- Witness for C2 at vector 5, which is not in the dispatch table. -/
theorem rearm_once_per_vector_witness :
    (service_interrupt ⟨false, false, false, false, false, false⟩ 5).2 = false
    ∧ hwBlock ⟨false, false, false, false, false, false⟩ 5
        = [Event.debugUnsupported 5, Event.clearPending 5, Event.enable 5] :=
  ⟨by decide,
   (rearm_once_per_vector ⟨⟨false, false, false, false, false, false⟩, [], []⟩
      ⟨false, false, false, false, false, false⟩ 5).2.2.2.2 (by decide)⟩

/-- Claim C3: with one deferred token and one hardware vector simultaneously
pending, the loop runs the deferred token's handler strictly before any event
of the hardware vector's servicing. -/
theorem deferred_token_before_vector (p : PeripheralState) (t : DeferredCallTask)
    (v : Nat) :
    (service_pending_interrupts ⟨p, [t], [v]⟩).1 = deferredEvent t :: hwBlock p v := by
  rw [events_decomposition]
  simp [servicedVectors]

/-- Claim C4: `service_pending_interrupts` (a total function: the pending
work is finite and no new work arrives in the model) drains everything —
after it returns, the deferred queue and the controller both report no
pending work. -/
theorem service_pending_interrupts_exhausts (s : ChipState) :
    deferred_has_tasks (service_pending_interrupts s).2 = false
    ∧ nvic_has_pending (service_pending_interrupts s).2 = false := by
  have h := final_state_empty s
  simp [deferred_has_tasks, nvic_has_pending, h.1, h.2]

/-- Claim C5: when exactly one member of a shared-vector group reports
enabled, servicing that group's vector invokes exactly that member's
handler and returns `true`; the peer's handler is absent from the trace. -/
theorem shared_group_exactly_one_enabled (b1 b2 b3 b4 : Bool) :
    service_interrupt ⟨true, false, b1, b2, b3, b4⟩ RADIO_vec
      = ([Event.handle .ieee802154], true)
    ∧ service_interrupt ⟨false, true, b1, b2, b3, b4⟩ RADIO_vec
      = ([Event.handle .ble], true)
    ∧ service_interrupt ⟨b1, b2, true, false, b3, b4⟩ SPI0_TWI0_vec
      = ([Event.handle .spim0], true)
    ∧ service_interrupt ⟨b1, b2, false, true, b3, b4⟩ SPI0_TWI0_vec
      = ([Event.handle .twim0], true)
    ∧ service_interrupt ⟨b1, b2, b3, b4, true, false⟩ SPI1_TWI1_vec
      = ([Event.handle .spim1], true)
    ∧ service_interrupt ⟨b1, b2, b3, b4, false, true⟩ SPI1_TWI1_vec
      = ([Event.handle .twim1], true) :=
  ⟨rfl, rfl, rfl, rfl, rfl, rfl⟩

/-- Claim C6: when no member of a shared-vector group reports enabled,
servicing that group's vector invokes no handler and still returns `true`
(recognized, not unrecognized). -/
theorem shared_group_none_enabled (b1 b2 b3 b4 : Bool) :
    service_interrupt ⟨false, false, b1, b2, b3, b4⟩ RADIO_vec = ([], true)
    ∧ service_interrupt ⟨b1, b2, false, false, b3, b4⟩ SPI0_TWI0_vec = ([], true)
    ∧ service_interrupt ⟨b1, b2, b3, b4, false, false⟩ SPI1_TWI1_vec = ([], true) :=
  ⟨rfl, rfl, rfl⟩

/-- Claim C7: a vector number absent from the dispatch table makes
`service_interrupt` return `false` with no side effects (empty trace). -/
theorem unknown_vector_not_recognized (p : PeripheralState) (v : Nat)
    (h : v ∉ tableVectors) : service_interrupt p v = ([], false) :=
  service_interrupt_unknown p v h

/-- Witness for C7 at vector 5 with all shared peripherals disabled. -/
theorem unknown_vector_not_recognized_witness :
    5 ∉ tableVectors
    ∧ service_interrupt ⟨false, false, false, false, false, false⟩ 5 = ([], false) :=
  ⟨by decide,
   unknown_vector_not_recognized ⟨false, false, false, false, false, false⟩ 5 (by decide)⟩

/-- Claim C8: `has_pending_interrupts` is true exactly when the deferred
queue holds a token or the controller holds a pending vector; it is a pure
function of the state (it returns only a `Bool` and no successor state), so
it has no side effects. -/
theorem has_pending_interrupts_iff (s : ChipState) :
    has_pending_interrupts s = true ↔ (s.deferred ≠ [] ∨ s.nvicPending ≠ []) := by
  rcases s with ⟨p, dq, pq⟩
  simp [has_pending_interrupts, nvic_has_pending, deferred_has_tasks,
    List.isEmpty_iff, or_comm]

/-- Witness for C8: a state with one deferred token and no pending vector. -/
theorem has_pending_interrupts_iff_witness :
    has_pending_interrupts
      ⟨⟨false, false, false, false, false, false⟩, [DeferredCallTask.nvmc], []⟩ = true :=
  (has_pending_interrupts_iff _).mpr (Or.inl (by decide))

/-- Claim C9: for every vector number and every combination of enabled
states, one call to `service_interrupt` invokes at most one handler: the
trace holds at most one handler-invocation event in total. -/
theorem service_interrupt_at_most_one_handler (p : PeripheralState) (v : Nat) :
    ((service_interrupt p v).1.countP Event.isHandle) ≤ 1 :=
  shape_countP_isHandle_le _ (service_interrupt_shape p v)

/-- Claim C10: a both-enabled shared group still yields `true` from
`service_interrupt` after the diagnostic, so the loop treats the vector as
recognized: the full single-vector trace ends with `clear_pending` and
`enable` on that vector, with no unrecognized-vector diagnostic. -/
theorem both_enabled_recognized_and_rearmed (b1 b2 b3 b4 : Bool) :
    (service_interrupt ⟨true, true, b1, b2, b3, b4⟩ RADIO_vec).2 = true
    ∧ (service_interrupt ⟨b1, b2, true, true, b3, b4⟩ SPI0_TWI0_vec).2 = true
    ∧ (service_interrupt ⟨b1, b2, b3, b4, true, true⟩ SPI1_TWI1_vec).2 = true
    ∧ (service_pending_interrupts ⟨⟨true, true, b1, b2, b3, b4⟩, [], [RADIO_vec]⟩).1
        = [Event.debugMsg "nRF 802.15.4 and BLE radios cannot be simultaneously enabled!",
           Event.clearPending RADIO_vec, Event.enable RADIO_vec]
    ∧ (service_pending_interrupts ⟨⟨b1, b2, true, true, b3, b4⟩, [], [SPI0_TWI0_vec]⟩).1
        = [Event.debugAssertFail "SPIM0 and TWIM0 cannot be enabled at the same time.",
           Event.clearPending SPI0_TWI0_vec, Event.enable SPI0_TWI0_vec]
    ∧ (service_pending_interrupts ⟨⟨b1, b2, b3, b4, true, true⟩, [], [SPI1_TWI1_vec]⟩).1
        = [Event.debugAssertFail "SPIM1 and TWIM1 cannot be enabled at the same time.",
           Event.clearPending SPI1_TWI1_vec, Event.enable SPI1_TWI1_vec] := by
  refine ⟨rfl, rfl, rfl, ?_, ?_, ?_⟩ <;> rw [single_vector_trace] <;> rfl

end Nrf52Chip
